import Mathlib

/-!
Verification of the `yandex-translate` client library.

The library is a thin HTTP client: it builds an authenticated POST request
from a `TranslateRequest`, sends it, and interprets the response.  We embed
the shared data model of `src/lib.rs` and the two client variants of
`src/blocking.rs` and `src/asynchronous.rs`.  The HTTP transport (reqwest)
is abstracted as an explicit `TransportOutcome` argument to `translate`, and
`translate` returns both the outbound request it builds and the result it
computes from the outcome, so that every observable of a call is a value.
-/

namespace YandexTranslate

/-- A JSON document, as produced by the JSON codec (serde_json) from the
wire bytes.  Objects keep their fields in emission order, as the derived
serializer writes them. -/
inductive Json where
  | null
  | bool (b : Bool)
  | num (n : Int)
  | str (s : String)
  | arr (elements : List Json)
  | obj (fields : List (String × Json))
deriving Repr

/-- The keys of a JSON object, in order; `[]` on any non-object. -/
def Json.objKeys : Json → List String
  | .obj fields => fields.map Prod.fst
  | _ => []

/-- Error taxonomy of `src/lib.rs` (`enum Error`).  `RequestFailed` carries
the transport error diagnostic (`reqwest::Error`), `JsonError` a JSON codec
diagnostic (`serde_json::Error`), `ApiError` and `ConfigError` a message. -/
inductive Error where
  | RequestFailed (msg : String)
  | JsonError (msg : String)
  | ApiError (msg : String)
  | ConfigError (msg : String)
deriving Repr, DecidableEq

/-- Authentication method, `enum AuthMethod` of `src/lib.rs`. -/
inductive AuthMethod where
  | ApiKey (key : String)
  | IAMToken (token : String)
deriving Repr, DecidableEq

/-- Request body type of `src/lib.rs` (`struct TranslateRequest`).  Borrowed
string slices are plain strings here; the slice of texts is a list. -/
structure TranslateRequest where
  folder_id : String
  texts : List String
  target_language_code : String
  source_language_code : Option String
deriving Repr, DecidableEq

/-- One translation result, `struct Translation` of `src/lib.rs`. -/
structure Translation where
  text : String
  detected_language_code : Option String
deriving Repr, DecidableEq

/-- Response type of `src/lib.rs` (`struct TranslateResponse`). -/
structure TranslateResponse where
  translations : List Translation
deriving Repr, DecidableEq

/-- `API_BASE_URL` constant of `src/lib.rs`. -/
def API_BASE_URL : String := "https://translate.api.cloud.yandex.net/translate/v2"

/-- Serialization of `TranslateRequest` as derived by
`#[derive(Serialize)] #[serde(rename_all = "camelCase")]`: fields are
emitted in declaration order under their camel-cased names, and
`source_language_code` is skipped entirely when `None`
(`#[serde(skip_serializing_if = "Option::is_none")]`). -/
def TranslateRequest.serialize (r : TranslateRequest) : Json :=
  .obj
    ([("folderId", .str r.folder_id),
      ("texts", .arr (r.texts.map .str)),
      ("targetLanguageCode", .str r.target_language_code)] ++
      match r.source_language_code with
      | none => []
      | some s => [("sourceLanguageCode", .str s)])

/-- Deserialization of one `Translation` as derived by
`#[derive(Deserialize)] #[serde(rename_all = "camelCase")]`: an object with
a required string field `text` and an optional string field
`detectedLanguageCode` (absent or `null` gives `None`); any other shape is
a decode failure. -/
def Translation.deserialize (j : Json) : Option Translation :=
  match j with
  | .obj fields =>
    match fields.lookup "text" with
    | some (.str t) =>
      match fields.lookup "detectedLanguageCode" with
      | none => some ⟨t, none⟩
      | some .null => some ⟨t, none⟩
      | some (.str d) => some ⟨t, some d⟩
      | some _ => none
    | _ => none
  | _ => none

/-- Deserialization of `TranslateResponse` as derived by
`#[derive(Deserialize)]`: an object with a required field `translations`
holding an array of translations. -/
def TranslateResponse.deserialize (j : Json) : Option TranslateResponse :=
  match j with
  | .obj fields =>
    match fields.lookup "translations" with
    | some (.arr xs) => (xs.mapM Translation.deserialize).map TranslateResponse.mk
    | _ => none
  | _ => none

/-- An HTTP status, modelling `http::StatusCode`: the numeric code together
with the reason phrase its `Display` implementation appends
(`canonical_reason()` or a fallback). -/
structure StatusCode where
  code : Nat
  reason : String
deriving Repr, DecidableEq

/-- `StatusCode::is_success`: the status is in the 2xx range. -/
def StatusCode.is_success (s : StatusCode) : Bool :=
  decide (200 ≤ s.code ∧ s.code < 300)

/-- The `Display` rendering of an `http::StatusCode`, used by the
`format!` in `translate`: the decimal code, a space, and the reason. -/
def StatusCode.display (s : StatusCode) : String :=
  toString s.code ++ " " ++ s.reason

/-- What the transport (reqwest) does with a sent request: either the send
itself fails (DNS, connection, TLS, timeout — a `reqwest::Error`), or a
response arrives with a status and a body.  `bodyText` is the outcome of
reading the body as text (`none` when that read fails); `bodyJson` is the
outcome of parsing the body bytes as a JSON document (`none` when the bytes
are not well-formed JSON or the read fails). -/
inductive TransportOutcome where
  | sendError (msg : String)
  | response (status : StatusCode) (bodyText : Option String) (bodyJson : Option Json)
deriving Repr

/-- Outcome of `reqwest::Client::builder().build()`, which either yields a
transport handle or fails with a `reqwest::Error` diagnostic. -/
inductive BuilderOutcome where
  | ok
  | err (msg : String)
deriving Repr, DecidableEq

/-- The request `translate` hands to the transport: method, URL, headers in
the order the builder adds them, and the JSON body. -/
structure OutboundRequest where
  method : String
  url : String
  headers : List (String × String)
  body : Json
deriving Repr

/-- The values of all headers named `k`, in order. -/
def headerValues (headers : List (String × String)) (k : String) : List String :=
  (headers.filter (fun p => p.1 == k)).map Prod.snd

/-- The diagnostic of the `reqwest::Error` produced when `response.json()`
fails to decode the body; `translate` wraps it via `From<reqwest::Error>`
into `Error::RequestFailed`. -/
def reqwestDecodeErrorMessage : String := "error decoding response body"

namespace Blocking

/-- The blocking client of `src/blocking.rs`: the stored authentication
method and base URL.  The reqwest transport handle is not part of the
state we reason about; the transport is the `TransportOutcome` argument
of `translate`. -/
structure YandexTranslateClient where
  auth : AuthMethod
  base_url : String
deriving Repr, DecidableEq

/-- `YandexTranslateClient::new` of `src/blocking.rs`: builds the transport
handle (whose outcome is the `builder` argument, failing with
`RequestFailed` via `?` and `From<reqwest::Error>`) and stores the auth
method and the default base URL. -/
def new (builder : BuilderOutcome) (auth : AuthMethod) :
    Except Error YandexTranslateClient :=
  match builder with
  | .err e => .error (.RequestFailed e)
  | .ok => .ok ⟨auth, API_BASE_URL⟩

/-- `YandexTranslateClient::with_api_key` of `src/blocking.rs`. -/
def with_api_key (builder : BuilderOutcome) (api_key : String) :
    Except Error YandexTranslateClient :=
  new builder (.ApiKey api_key)

/-- `YandexTranslateClient::with_iam_token` of `src/blocking.rs`. -/
def with_iam_token (builder : BuilderOutcome) (iam_token : String) :
    Except Error YandexTranslateClient :=
  new builder (.IAMToken iam_token)

/-- `YandexTranslateClient::with_base_url` of `src/blocking.rs`. -/
def with_base_url (c : YandexTranslateClient) (base_url : String) :
    YandexTranslateClient :=
  ⟨c.auth, base_url⟩

/-- `YandexTranslateClient::translate` of `src/blocking.rs`.  Builds the
POST request (URL, `Content-Type` header, one `Authorization` header from
the stored auth method, serialized JSON body) and interprets the transport
outcome: a send failure becomes `RequestFailed`; a non-2xx status becomes
`ApiError` with the formatted status and the body text (or the
`"Unknown error"` placeholder when the text read fails); on a 2xx status
the body is decoded, a decode failure surfacing as the transport's decode
error through `?` (hence `RequestFailed`). -/
def translate (c : YandexTranslateClient) (request : TranslateRequest)
    (outcome : TransportOutcome) :
    OutboundRequest × Except Error TranslateResponse :=
  let url := c.base_url ++ "/translate"
  let headers := [("Content-Type", "application/json"),
    (match c.auth with
     | .ApiKey key => ("Authorization", "Api-Key " ++ key)
     | .IAMToken token => ("Authorization", "Bearer " ++ token))]
  let sent : OutboundRequest := ⟨"POST", url, headers, request.serialize⟩
  let result : Except Error TranslateResponse :=
    match outcome with
    | .sendError e => .error (.RequestFailed e)
    | .response status bodyText bodyJson =>
      if !status.is_success then
        let error_text := bodyText.getD "Unknown error"
        .error (.ApiError
          ("API returned status " ++ status.display ++ ": " ++ error_text))
      else
        match bodyJson.bind TranslateResponse.deserialize with
        | some parsed => .ok parsed
        | none => .error (.RequestFailed reqwestDecodeErrorMessage)
  (sent, result)

end Blocking

namespace Asynchronous

/-- The asynchronous client of `src/asynchronous.rs`: the stored
authentication method and base URL. -/
structure YandexTranslateClient where
  auth : AuthMethod
  base_url : String
deriving Repr, DecidableEq

/-- `YandexTranslateClient::new` of `src/asynchronous.rs`. -/
def new (builder : BuilderOutcome) (auth : AuthMethod) :
    Except Error YandexTranslateClient :=
  match builder with
  | .err e => .error (.RequestFailed e)
  | .ok => .ok ⟨auth, API_BASE_URL⟩

/-- `YandexTranslateClient::with_api_key` of `src/asynchronous.rs`. -/
def with_api_key (builder : BuilderOutcome) (api_key : String) :
    Except Error YandexTranslateClient :=
  new builder (.ApiKey api_key)

/-- `YandexTranslateClient::with_iam_token` of `src/asynchronous.rs`. -/
def with_iam_token (builder : BuilderOutcome) (iam_token : String) :
    Except Error YandexTranslateClient :=
  new builder (.IAMToken iam_token)

/-- `YandexTranslateClient::with_base_url` of `src/asynchronous.rs`. -/
def with_base_url (c : YandexTranslateClient) (base_url : String) :
    YandexTranslateClient :=
  ⟨c.auth, base_url⟩

/-- `YandexTranslateClient::translate` of `src/asynchronous.rs`.  Textually
the same algorithm as the blocking variant; the suspension points of the
async body (`send().await`, `text().await`, `json().await`) have no
counterpart in a value-level model. -/
def translate (c : YandexTranslateClient) (request : TranslateRequest)
    (outcome : TransportOutcome) :
    OutboundRequest × Except Error TranslateResponse :=
  let url := c.base_url ++ "/translate"
  let headers := [("Content-Type", "application/json"),
    (match c.auth with
     | .ApiKey key => ("Authorization", "Api-Key " ++ key)
     | .IAMToken token => ("Authorization", "Bearer " ++ token))]
  let sent : OutboundRequest := ⟨"POST", url, headers, request.serialize⟩
  let result : Except Error TranslateResponse :=
    match outcome with
    | .sendError e => .error (.RequestFailed e)
    | .response status bodyText bodyJson =>
      if !status.is_success then
        let error_text := bodyText.getD "Unknown error"
        .error (.ApiError
          ("API returned status " ++ status.display ++ ": " ++ error_text))
      else
        match bodyJson.bind TranslateResponse.deserialize with
        | some parsed => .ok parsed
        | none => .error (.RequestFailed reqwestDecodeErrorMessage)
  (sent, result)

end Asynchronous

/-- The blocking client's observable state, as an asynchronous client value;
the two structures have the same two fields. -/
def Blocking.YandexTranslateClient.toAsync (c : Blocking.YandexTranslateClient) :
    Asynchronous.YandexTranslateClient :=
  ⟨c.auth, c.base_url⟩

/-- `sub` occurs somewhere inside `s`. -/
def SubstringOf (sub s : String) : Prop :=
  ∃ pre post, s = pre ++ sub ++ post

/-- Whether a call result carries the `ConfigError` variant. -/
def hasConfigError {α : Type} : Except Error α → Bool
  | .error (.ConfigError _) => true
  | _ => false


/-- A request and clients used to instantiate witnesses on concrete inputs. -/
def sampleRequest : TranslateRequest := ⟨"f1", ["Hello"], "ru", none⟩

/-- A concrete blocking client for witnesses. -/
def sampleBlockingClient : Blocking.YandexTranslateClient :=
  ⟨.ApiKey "k", "https://mock.test"⟩

/-- A concrete asynchronous client for witnesses. -/
def sampleAsyncClient : Asynchronous.YandexTranslateClient :=
  ⟨.IAMToken "t", "https://mock.test"⟩

/-- C1: for a client whose stored auth method is `ApiKey k`, `translate`
attaches exactly one `Authorization` header, valued `Api-Key k`; for
`IAMToken t`, exactly one `Authorization` header, valued `Bearer t` —
in both client variants. -/
theorem translate_authorization_header
    (cb : Blocking.YandexTranslateClient) (ca : Asynchronous.YandexTranslateClient)
    (r : TranslateRequest) (o : TransportOutcome) :
    headerValues (Blocking.translate cb r o).1.headers "Authorization"
      = [match cb.auth with
         | .ApiKey k => "Api-Key " ++ k
         | .IAMToken t => "Bearer " ++ t] ∧
    headerValues (Asynchronous.translate ca r o).1.headers "Authorization"
      = [match ca.auth with
         | .ApiKey k => "Api-Key " ++ k
         | .IAMToken t => "Bearer " ++ t] := by
  obtain ⟨a, u⟩ := cb
  obtain ⟨a2, u2⟩ := ca
  cases a <;> cases a2 <;> exact ⟨rfl, rfl⟩

/-- C2: the serialized body's keys are exactly the lower-camel-case names
`folderId`, `texts`, `targetLanguageCode` and, only when a source language
is set, `sourceLanguageCode`; when `source_language_code` is `none` the
`sourceLanguageCode` key is entirely absent (so in particular never
present with a null value). -/
theorem serialize_camel_case_keys (r : TranslateRequest) :
    r.serialize.objKeys
      = (match r.source_language_code with
         | none => ["folderId", "texts", "targetLanguageCode"]
         | some _ =>
           ["folderId", "texts", "targetLanguageCode", "sourceLanguageCode"]) ∧
    (r.source_language_code = none →
      "sourceLanguageCode" ∉ r.serialize.objKeys) := by
  obtain ⟨f, ts, tl, sl⟩ := r
  cases sl with
  | none =>
    refine ⟨rfl, fun _ => ?_⟩
    show "sourceLanguageCode" ∉ ["folderId", "texts", "targetLanguageCode"]
    decide
  | some s => exact ⟨rfl, fun h => by simp at h⟩

/-- C2 witness: at a concrete request without a source language, the keys
are the three camel-case names and `sourceLanguageCode` is absent. -/
theorem serialize_camel_case_keys_witness :
    (TranslateRequest.serialize ⟨"f1", ["Hello"], "ru", none⟩).objKeys
      = ["folderId", "texts", "targetLanguageCode"] ∧
    "sourceLanguageCode" ∉
      (TranslateRequest.serialize ⟨"f1", ["Hello"], "ru", none⟩).objKeys := by
  have h := serialize_camel_case_keys ⟨"f1", ["Hello"], "ru", none⟩
  exact ⟨h.1, h.2 rfl⟩

/-- C3: on any non-2xx response both variants return an `ApiError` (and no
other variant) whose message contains the numeric status code and the body
text read as text — the placeholder standing in for the body when the text
read fails. -/
theorem non_success_yields_api_error
    (cb : Blocking.YandexTranslateClient) (ca : Asynchronous.YandexTranslateClient)
    (r : TranslateRequest) (status : StatusCode)
    (bodyText : Option String) (bodyJson : Option Json)
    (h : status.is_success = false) :
    ∃ m,
      (Blocking.translate cb r (.response status bodyText bodyJson)).2
        = .error (.ApiError m) ∧
      (Asynchronous.translate ca r (.response status bodyText bodyJson)).2
        = .error (.ApiError m) ∧
      SubstringOf (toString status.code) m ∧
      SubstringOf (bodyText.getD "Unknown error") m := by
  refine ⟨"API returned status " ++ status.display ++ ": " ++
    bodyText.getD "Unknown error", ?_, ?_, ?_, ?_⟩
  · simp [Blocking.translate, h]
  · simp [Asynchronous.translate, h]
  · exact ⟨"API returned status ",
      " " ++ status.reason ++ ": " ++ bodyText.getD "Unknown error",
      by simp [StatusCode.display, String.append_assoc]⟩
  · exact ⟨"API returned status " ++ status.display ++ ": ", "",
      by simp [String.append_assoc]⟩

/-- C3 witness: a simulated 400 response with body text `bad folder`
yields an `ApiError` containing `400` and `bad folder`. -/
theorem non_success_yields_api_error_witness :
    (⟨400, "Bad Request"⟩ : StatusCode).is_success = false ∧
    ∃ m,
      (Blocking.translate sampleBlockingClient sampleRequest
          (.response ⟨400, "Bad Request"⟩ (some "bad folder") none)).2
        = .error (.ApiError m) ∧
      (Asynchronous.translate sampleAsyncClient sampleRequest
          (.response ⟨400, "Bad Request"⟩ (some "bad folder") none)).2
        = .error (.ApiError m) ∧
      SubstringOf (toString (400 : Nat)) m ∧
      SubstringOf ((some "bad folder").getD "Unknown error") m :=
  ⟨by decide,
   non_success_yields_api_error sampleBlockingClient sampleAsyncClient
     sampleRequest ⟨400, "Bad Request"⟩ (some "bad folder") none (by decide)⟩

/-- C4: both variants target `{base_url}/translate`: after
`with_base_url "https://mock.test"` the outbound URL is
`https://mock.test/translate`, and a freshly constructed client holds the
canonical default base URL, giving the default endpoint's URL. -/
theorem translate_target_url
    (cb : Blocking.YandexTranslateClient) (ca : Asynchronous.YandexTranslateClient)
    (a : AuthMethod) (r : TranslateRequest) (o : TransportOutcome) :
    (Blocking.translate cb r o).1.url = cb.base_url ++ "/translate" ∧
    (Asynchronous.translate ca r o).1.url = ca.base_url ++ "/translate" ∧
    (Blocking.translate (Blocking.with_base_url cb "https://mock.test") r o).1.url
      = "https://mock.test/translate" ∧
    (Asynchronous.translate (Asynchronous.with_base_url ca "https://mock.test") r o).1.url
      = "https://mock.test/translate" ∧
    Blocking.new .ok a = .ok ⟨a, API_BASE_URL⟩ ∧
    Asynchronous.new .ok a = .ok ⟨a, API_BASE_URL⟩ ∧
    (Blocking.translate ⟨a, API_BASE_URL⟩ r o).1.url
      = "https://translate.api.cloud.yandex.net/translate/v2/translate" ∧
    (Asynchronous.translate ⟨a, API_BASE_URL⟩ r o).1.url
      = "https://translate.api.cloud.yandex.net/translate/v2/translate" :=
  ⟨rfl, rfl, rfl, rfl, rfl, rfl, rfl, rfl⟩

/-- C5 counterexample: on a 2xx status whose body is not valid JSON for the
response shape, the result is `RequestFailed` — the decode failure is a
`reqwest::Error` converted through `From<reqwest::Error>` — and not the
`JsonError` variant the claim names. -/
theorem malformed_body_not_json_error :
    (Blocking.translate ⟨.ApiKey "k", "https://mock.test"⟩ ⟨"f1", ["Hello"], "ru", none⟩
        (.response ⟨200, "OK"⟩ (some "not json") none)).2
      = .error (.RequestFailed reqwestDecodeErrorMessage) ∧
    (Asynchronous.translate ⟨.ApiKey "k", "https://mock.test"⟩ ⟨"f1", ["Hello"], "ru", none⟩
        (.response ⟨200, "OK"⟩ (some "not json") none)).2
      = .error (.RequestFailed reqwestDecodeErrorMessage) :=
  ⟨rfl, rfl⟩

/-- C5 as amended: on a 2xx status whose body does not decode as a
`TranslateResponse`, both variants return a `RequestFailed` error wrapping
the transport's decode diagnostic (never a success result, and not
`JsonError`). -/
theorem malformed_body_yields_request_failed
    (cb : Blocking.YandexTranslateClient) (ca : Asynchronous.YandexTranslateClient)
    (r : TranslateRequest) (status : StatusCode)
    (bodyText : Option String) (bodyJson : Option Json)
    (h : status.is_success = true)
    (hj : bodyJson.bind TranslateResponse.deserialize = none) :
    (Blocking.translate cb r (.response status bodyText bodyJson)).2
      = .error (.RequestFailed reqwestDecodeErrorMessage) ∧
    (Asynchronous.translate ca r (.response status bodyText bodyJson)).2
      = .error (.RequestFailed reqwestDecodeErrorMessage) := by
  constructor <;> simp [Blocking.translate, Asynchronous.translate, h, hj]

/-- C5 witness: a concrete 200 response whose body is not the expected JSON
shape gives `RequestFailed` in both variants. -/
theorem malformed_body_yields_request_failed_witness :
    (⟨200, "OK"⟩ : StatusCode).is_success = true ∧
    ((some (Json.str "oops")).bind TranslateResponse.deserialize
      = (none : Option TranslateResponse)) ∧
    ((Blocking.translate sampleBlockingClient sampleRequest
        (.response ⟨200, "OK"⟩ none (some (.str "oops")))).2
      = .error (.RequestFailed reqwestDecodeErrorMessage) ∧
    (Asynchronous.translate sampleAsyncClient sampleRequest
        (.response ⟨200, "OK"⟩ none (some (.str "oops")))).2
      = .error (.RequestFailed reqwestDecodeErrorMessage)) :=
  ⟨by decide, rfl,
   malformed_body_yields_request_failed sampleBlockingClient sampleAsyncClient
     sampleRequest ⟨200, "OK"⟩ none (some (.str "oops")) (by decide) rfl⟩

/-- C6: on equal stored state (auth method and base URL), equal request and
equal transport outcome, the blocking and asynchronous `translate` build the
same outbound request and return the same result; the constructors and the
base-URL setter agree likewise, field for field. -/
theorem blocking_async_equivalent (a : AuthMethod) (u : String)
    (r : TranslateRequest) (o : TransportOutcome) (b : BuilderOutcome)
    (s k t : String) :
    Blocking.translate ⟨a, u⟩ r o = Asynchronous.translate ⟨a, u⟩ r o ∧
    (Blocking.new b a).map Blocking.YandexTranslateClient.toAsync
      = Asynchronous.new b a ∧
    (Blocking.with_api_key b k).map Blocking.YandexTranslateClient.toAsync
      = Asynchronous.with_api_key b k ∧
    (Blocking.with_iam_token b t).map Blocking.YandexTranslateClient.toAsync
      = Asynchronous.with_iam_token b t ∧
    (Blocking.with_base_url ⟨a, u⟩ s).toAsync
      = Asynchronous.with_base_url ⟨a, u⟩ s := by
  refine ⟨rfl, ?_, ?_, ?_, rfl⟩ <;> cases b <;> rfl

/-- C7: `with_api_key` is exactly `new` with `ApiKey`, and `with_iam_token`
exactly `new` with `IAMToken`, in both variants — so they produce the same
client state and fail exactly when `new` fails. -/
theorem convenience_constructors_equal_new (b : BuilderOutcome) (s : String) :
    Blocking.with_api_key b s = Blocking.new b (.ApiKey s) ∧
    Blocking.with_iam_token b s = Blocking.new b (.IAMToken s) ∧
    Asynchronous.with_api_key b s = Asynchronous.new b (.ApiKey s) ∧
    Asynchronous.with_iam_token b s = Asynchronous.new b (.IAMToken s) :=
  ⟨rfl, rfl, rfl, rfl⟩

/-- C8: no operation of either variant ever returns `ConfigError`, whatever
the inputs and the transport outcome; and a transport-builder failure in
`new` surfaces as `RequestFailed` carrying the builder's diagnostic. -/
theorem config_error_never_returned (b : BuilderOutcome) (a : AuthMethod)
    (s e : String)
    (cb : Blocking.YandexTranslateClient) (ca : Asynchronous.YandexTranslateClient)
    (r : TranslateRequest) (o : TransportOutcome) :
    hasConfigError (Blocking.new b a) = false ∧
    hasConfigError (Blocking.with_api_key b s) = false ∧
    hasConfigError (Blocking.with_iam_token b s) = false ∧
    hasConfigError (Blocking.translate cb r o).2 = false ∧
    hasConfigError (Asynchronous.new b a) = false ∧
    hasConfigError (Asynchronous.with_api_key b s) = false ∧
    hasConfigError (Asynchronous.with_iam_token b s) = false ∧
    hasConfigError (Asynchronous.translate ca r o).2 = false ∧
    Blocking.new (.err e) a = .error (.RequestFailed e) ∧
    Asynchronous.new (.err e) a = .error (.RequestFailed e) := by
  refine ⟨?_, ?_, ?_, ?_, ?_, ?_, ?_, ?_, rfl, rfl⟩ <;>
    first
    | (cases b <;> rfl)
    | (cases o with
       | sendError m => rfl
       | response status bodyText bodyJson =>
         cases hs : status.is_success with
         | false =>
           simp [Blocking.translate, Asynchronous.translate, hs, hasConfigError]
         | true =>
           simp only [Blocking.translate, Asynchronous.translate, hs,
             Bool.not_true, if_neg, Bool.false_eq_true, not_false_eq_true]
           cases bodyJson.bind TranslateResponse.deserialize <;>
             simp [hasConfigError])

/-- C9 counterexample: the client enforces no relation between the number of
input texts and the number of returned translations: a 2xx response whose
body holds an empty `translations` array succeeds against a one-text
request. -/
theorem success_length_mismatch :
    (Blocking.translate ⟨.ApiKey "k", "https://mock.test"⟩ ⟨"f1", ["Hello"], "ru", none⟩
        (.response ⟨200, "OK"⟩ none (some (.obj [("translations", .arr [])])))).2
      = .ok ⟨[]⟩ ∧
    (⟨"f1", ["Hello"], "ru", none⟩ : TranslateRequest).texts.length = 1 ∧
    (TranslateResponse.mk []).translations.length = 0 :=
  ⟨rfl, rfl, rfl⟩

/-- C9 as amended: a successful result is exactly the sequence of
translations decoded from the response body, in the body's order, in both
variants; the client itself performs no length or alignment check, so the
result has one translation per input text exactly when the remote response
supplies that. -/
theorem success_passes_through_translations
    (cb : Blocking.YandexTranslateClient) (ca : Asynchronous.YandexTranslateClient)
    (r : TranslateRequest) (status : StatusCode) (bodyText : Option String)
    (j : Json) (resp : TranslateResponse)
    (h : status.is_success = true)
    (hd : TranslateResponse.deserialize j = some resp) :
    (Blocking.translate cb r (.response status bodyText (some j))).2 = .ok resp ∧
    (Asynchronous.translate ca r (.response status bodyText (some j))).2 = .ok resp ∧
    (resp.translations.length = r.texts.length →
      ∃ out, (Blocking.translate cb r (.response status bodyText (some j))).2 = .ok out ∧
        out.translations.length = r.texts.length) := by
  refine ⟨?_, ?_, ?_⟩
  · simp [Blocking.translate, h, hd]
  · simp [Asynchronous.translate, h, hd]
  · intro hlen
    exact ⟨resp, by simp [Blocking.translate, h, hd], hlen⟩

/-- C9 witness: the end-to-end scenario — one input text, a 200 body with
one translation — yields that one translation, index-aligned. -/
theorem success_passes_through_translations_witness :
    (⟨200, "OK"⟩ : StatusCode).is_success = true ∧
    TranslateResponse.deserialize
        (.obj [("translations", .arr [.obj [("text", .str "Привет"),
          ("detectedLanguageCode", .str "en")]])])
      = some ⟨[⟨"Привет", some "en"⟩]⟩ ∧
    ((Blocking.translate sampleBlockingClient sampleRequest
        (.response ⟨200, "OK"⟩ none (some (.obj [("translations",
          .arr [.obj [("text", .str "Привет"),
            ("detectedLanguageCode", .str "en")]])])))).2
      = .ok ⟨[⟨"Привет", some "en"⟩]⟩ ∧
    (Asynchronous.translate sampleAsyncClient sampleRequest
        (.response ⟨200, "OK"⟩ none (some (.obj [("translations",
          .arr [.obj [("text", .str "Привет"),
            ("detectedLanguageCode", .str "en")]])])))).2
      = .ok ⟨[⟨"Привет", some "en"⟩]⟩ ∧
    (((⟨[⟨"Привет", some "en"⟩]⟩ : TranslateResponse)).translations.length
        = sampleRequest.texts.length →
      ∃ out, (Blocking.translate sampleBlockingClient sampleRequest
          (.response ⟨200, "OK"⟩ none (some (.obj [("translations",
            .arr [.obj [("text", .str "Привет"),
              ("detectedLanguageCode", .str "en")]])])))).2 = .ok out ∧
        out.translations.length = sampleRequest.texts.length)) :=
  ⟨by decide, rfl,
   success_passes_through_translations sampleBlockingClient sampleAsyncClient
     sampleRequest ⟨200, "OK"⟩ none
     (.obj [("translations", .arr [.obj [("text", .str "Привет"),
       ("detectedLanguageCode", .str "en")]])])
     ⟨[⟨"Привет", some "en"⟩]⟩ (by decide) rfl⟩

/-- C10: on any non-2xx response the `ApiError` message is exactly
`API returned status ` followed by the status as it displays (its decimal
code, a space, and its reason phrase — the `Display` of the status type),
then `: `, then the body text; and when the body text read fails the
placeholder substituted is exactly `Unknown error`. -/
theorem api_error_message_exact_form
    (cb : Blocking.YandexTranslateClient) (ca : Asynchronous.YandexTranslateClient)
    (r : TranslateRequest) (status : StatusCode)
    (bodyText : Option String) (bodyJson : Option Json)
    (h : status.is_success = false) :
    (Blocking.translate cb r (.response status bodyText bodyJson)).2
      = .error (.ApiError ("API returned status " ++ status.display ++ ": "
          ++ bodyText.getD "Unknown error")) ∧
    (Asynchronous.translate ca r (.response status bodyText bodyJson)).2
      = .error (.ApiError ("API returned status " ++ status.display ++ ": "
          ++ bodyText.getD "Unknown error")) ∧
    (Blocking.translate cb r (.response status none bodyJson)).2
      = .error (.ApiError ("API returned status " ++ status.display ++ ": "
          ++ "Unknown error")) ∧
    (Asynchronous.translate ca r (.response status none bodyJson)).2
      = .error (.ApiError ("API returned status " ++ status.display ++ ": "
          ++ "Unknown error")) := by
  refine ⟨?_, ?_, ?_, ?_⟩ <;>
    simp [Blocking.translate, Asynchronous.translate, h]

/-- C10 witness: a 418 response whose body read fails yields exactly the
message with the `Unknown error` placeholder. -/
theorem api_error_message_exact_form_witness :
    (⟨418, "I am a teapot"⟩ : StatusCode).is_success = false ∧
    ((Blocking.translate sampleBlockingClient sampleRequest
        (.response ⟨418, "I am a teapot"⟩ none none)).2
      = .error (.ApiError
          "API returned status 418 I am a teapot: Unknown error") ∧
    (Asynchronous.translate sampleAsyncClient sampleRequest
        (.response ⟨418, "I am a teapot"⟩ none none)).2
      = .error (.ApiError
          "API returned status 418 I am a teapot: Unknown error")) := by
  have h := api_error_message_exact_form sampleBlockingClient sampleAsyncClient
    sampleRequest ⟨418, "I am a teapot"⟩ none none (by decide)
  exact ⟨by decide, h.1, h.2.1⟩

end YandexTranslate
